import Mathlib

/-!
Verification development for the slim Kubernetes `EndpointSlice` v1 schema
(`pkg/k8s/slim/k8s/api/discovery/v1/types.go`).

The Go source declares the data model (structs with `json:` and `protobuf:`
tags); the serialization behaviour is determined by those tags together with
the standard Go codec rules (`encoding/json` for the structured text format,
gogo-protobuf generated marshalers for the binary tagged-field format).  This
file embeds the data model and those codec rules shallowly:

* a Go pointer field (`*T`) becomes `Option T`;
* a Go slice becomes `List` (Go's nil-slice / empty-slice distinction is
  collapsed: both encode to the same wire shape here, and equality on the
  Lean side is unaffected);
* a Go `map[string]string` becomes an association list `List (String × String)`;
* the structured text format is a JSON value tree;
* the binary tagged-field format is a list of (field-number, payload) pairs,
  abstracting the varint/length-delimited byte layer, which is shared protobuf
  machinery and not schema-specific.

Codec rules embedded from Go semantics, driven by the tags in the source:
* `encoding/json` emits struct fields in declaration order, under the tag
  name when a `json:"..."` tag is present and under the Go field name when
  not; `omitempty` omits nil pointers, empty strings, and empty maps, but has
  no effect on struct-typed fields; a pointer field without `omitempty`
  encodes as `null` when nil; on decode, a missing or `null` key leaves the
  zero value, and a type mismatch is an error;
* the gogo-protobuf marshaler emits, in ascending field-number order, one
  entry per element for repeated fields, an entry for each non-nil pointer
  field, and an entry unconditionally for non-pointer message and string
  fields; embedded `TypeMeta` carries no `protobuf:` tag and therefore does
  not appear in the binary format at all.
-/

/-- Modelled from the spec: `slim_metav1.TypeMeta` (companion schema, not in
the source tree) — kind and apiVersion strings, both optional-as-empty,
inline in JSON, absent from the protobuf message. -/
structure TypeMeta where
  Kind : String
  APIVersion : String
deriving DecidableEq, Repr

/-- Modelled from the spec: `slim_metav1.ObjectMeta` (companion schema, not in
the source tree) — "Standard object's metadata": name, namespace, resource
version, labels. -/
structure ObjectMeta where
  Name : String
  Namespace : String
  ResourceVersion : String
  Labels : List (String × String)
deriving DecidableEq, Repr

/-- Modelled from the spec: `slim_metav1.ListMeta` (companion schema, not in
the source tree) — "Standard list metadata". -/
structure ListMeta where
  ResourceVersion : String
deriving DecidableEq, Repr

/-- `AddressType` represents the type of address referred to by an endpoint.
An open string-based enumeration (Go: `type AddressType string`). -/
abbrev AddressType := String

/-- `AddressTypeIPv4` represents an IPv4 Address. -/
def AddressTypeIPv4 : AddressType := "IPv4"

/-- `AddressTypeIPv6` represents an IPv6 Address. -/
def AddressTypeIPv6 : AddressType := "IPv6"

/-- `AddressTypeFQDN` represents a FQDN. -/
def AddressTypeFQDN : AddressType := "FQDN"

/-- Modelled from the spec: `slim_corev1.Protocol` (companion schema, not in
the source tree) — an open string-based enumeration (`UDP`/`TCP`/`SCTP` are
the known values). -/
abbrev Protocol := String

/-- `EndpointConditions` represents the current condition of an endpoint.
All three booleans are `+optional` pointer fields (tri-state). -/
structure EndpointConditions where
  Ready : Option Bool
  Serving : Option Bool
  Terminating : Option Bool
deriving DecidableEq, Repr

/-- `ForZone` provides information about which zones should consume this
endpoint.  `Name` is a plain string with a `protobuf:` tag but no `json:`
tag. -/
structure ForZone where
  Name : String
deriving DecidableEq, Repr

/-- `EndpointHints` provides hints describing how an endpoint should be
consumed.  `ForZones` has a `protobuf:` tag but no `json:` tag. -/
structure EndpointHints where
  ForZones : List ForZone
deriving DecidableEq, Repr

/-- `EndpointPort` represents a Port used by an EndpointSlice.  All three
fields are optional pointers with `json:"...,omitempty"` tags. -/
structure EndpointPort where
  Name : Option String
  Protocol : Option Protocol
  Port : Option Int
deriving DecidableEq, Repr

/-- `Endpoint` represents a single logical "backend" implementing a service.
`Conditions` is a plain embedded struct (not a pointer); `Zone` and `Hints`
carry `protobuf:` tags but no `json:` tags. -/
structure Endpoint where
  Addresses : List String
  Conditions : EndpointConditions
  DeprecatedTopology : List (String × String)
  NodeName : Option String
  Zone : Option String
  Hints : Option EndpointHints
deriving DecidableEq, Repr

/-- `EndpointSlice` represents a subset of the endpoints that implement a
service.  `TypeMeta` is inline in JSON and absent from protobuf; `metadata`
is an embedded `ObjectMeta` struct. -/
structure EndpointSlice where
  Kind : String
  APIVersion : String
  metadata : ObjectMeta
  AddressType : AddressType
  Endpoints : List Endpoint
  Ports : List EndpointPort
deriving DecidableEq, Repr

/-- `EndpointSliceList` represents a list of endpoint slices. -/
structure EndpointSliceList where
  Kind : String
  APIVersion : String
  metadata : ListMeta
  Items : List EndpointSlice
deriving DecidableEq, Repr

/-- JSON value tree: the structured text wire format. -/
inductive Json where
  | null
  | jbool (b : Bool)
  | jnum (n : Int)
  | jstr (s : String)
  | jarr (xs : List Json)
  | jobj (fields : List (String × Json))
deriving Repr

/-- Payload of one binary tagged field.  The byte-level varint /
length-delimited layer is abstracted away; what remains is exactly the
schema-specific content: the field number and the typed payload. -/
inductive PbVal where
  | vstr (s : String)
  | vint (n : Int)
  | vbool (b : Bool)
  | vmsg (fields : List (Nat × PbVal))
deriving Repr

/-- A binary tagged-field message body: (field number, payload) pairs in wire
order. -/
abbrev PbMsg := List (Nat × PbVal)

/-- The single decode-error kind: malformed wire data, naming the offending
field. -/
inductive DecErr where
  | malformed (field : String)
deriving DecidableEq, Repr

/-- Success test for decode results. -/
def isOk : Except DecErr α → Bool
  | .ok _ => true
  | .error _ => false

/-! ## JSON codec helpers -/

/-- First binding of key `k` in a JSON object's field list. -/
def jlookup (fields : List (String × Json)) (k : String) : Option Json :=
  match fields with
  | [] => none
  | (k', v) :: rest => if k' = k then some v else jlookup rest k

/-- Keys of a JSON object, in order. -/
def jkeys : Json → List String
  | .jobj fields => fields.map Prod.fst
  | _ => []

/-- Whether a JSON object carries key `k`. -/
def jhasKey (j : Json) (k : String) : Bool :=
  match j with
  | .jobj fields => (jlookup fields k).isSome
  | _ => false

/-- Value at key `k` of a JSON object. -/
def jget (j : Json) (k : String) : Option Json :=
  match j with
  | .jobj fields => jlookup fields k
  | _ => none

/-- Encode an optional pointer field tagged `omitempty`: omitted when nil. -/
def encOptStr (k : String) (o : Option String) : List (String × Json) :=
  match o with
  | none => []
  | some s => [(k, Json.jstr s)]

/-- Encode an optional bool pointer field tagged `omitempty`. -/
def encOptBool (k : String) (o : Option Bool) : List (String × Json) :=
  match o with
  | none => []
  | some b => [(k, Json.jbool b)]

/-- Encode an optional int pointer field tagged `omitempty`. -/
def encOptInt (k : String) (o : Option Int) : List (String × Json) :=
  match o with
  | none => []
  | some n => [(k, Json.jnum n)]

/-- Encode a pointer field WITHOUT `omitempty` (an untagged Go field): always
emitted, `null` when nil. -/
def encNullable (k : String) (o : Option Json) : List (String × Json) :=
  [(k, match o with | none => Json.null | some j => j)]

/-- Encode a plain string field tagged `omitempty`: omitted when empty. -/
def encStrOmitempty (k : String) (s : String) : List (String × Json) :=
  if s = "" then [] else [(k, Json.jstr s)]

/-- Encode a `map[string]string` value as a JSON object. -/
def encStrMap (m : List (String × String)) : Json :=
  Json.jobj (m.map fun kv => (kv.1, Json.jstr kv.2))

/-- Encode a `map[string]string` field tagged `omitempty`: omitted when
empty. -/
def encMapOmitempty (k : String) (m : List (String × String)) :
    List (String × Json) :=
  match m with
  | [] => []
  | _ => [(k, encStrMap m)]

/-- Decode an optional `*bool` field: missing or `null` is nil; a non-bool
value is malformed. -/
def decOptBool (f : String) (fields : List (String × Json)) :
    Except DecErr (Option Bool) :=
  match jlookup fields f with
  | none => .ok none
  | some .null => .ok none
  | some (.jbool b) => .ok (some b)
  | some _ => .error (.malformed f)

/-- Decode an optional `*string` field: missing or `null` is nil. -/
def decOptStr (f : String) (fields : List (String × Json)) :
    Except DecErr (Option String) :=
  match jlookup fields f with
  | none => .ok none
  | some .null => .ok none
  | some (.jstr s) => .ok (some s)
  | some _ => .error (.malformed f)

/-- Decode an optional `*int32` field: missing or `null` is nil. -/
def decOptInt (f : String) (fields : List (String × Json)) :
    Except DecErr (Option Int) :=
  match jlookup fields f with
  | none => .ok none
  | some .null => .ok none
  | some (.jnum n) => .ok (some n)
  | some _ => .error (.malformed f)

/-- Decode a plain `string` field: missing or `null` leaves the zero value
`""`. -/
def decStrField (f : String) (fields : List (String × Json)) :
    Except DecErr String :=
  match jlookup fields f with
  | none => .ok ""
  | some .null => .ok ""
  | some (.jstr s) => .ok s
  | some _ => .error (.malformed f)

/-- Decode a slice-typed field down to its element list: missing or `null`
leaves the zero value (nil slice, here `[]`). -/
def decArrField (f : String) (fields : List (String × Json)) :
    Except DecErr (List Json) :=
  match jlookup fields f with
  | none => .ok []
  | some .null => .ok []
  | some (.jarr xs) => .ok xs
  | some _ => .error (.malformed f)

/-- Decode a `[]string` element list. -/
def decStrElems (f : String) : List Json → Except DecErr (List String)
  | [] => .ok []
  | .jstr s :: rest =>
    match decStrElems f rest with
    | .ok r => .ok (s :: r)
    | .error e => .error e
  | _ :: _ => .error (.malformed f)

/-- Decode each element of a list with `dec`, failing on the first error. -/
def decElems (dec : α → Except DecErr β) : List α → Except DecErr (List β)
  | [] => .ok []
  | x :: rest =>
    match dec x with
    | .error e => .error e
    | .ok y =>
      match decElems dec rest with
      | .error e => .error e
      | .ok ys => .ok (y :: ys)

/-- Decode the entries of a JSON object into a `map[string]string`. -/
def decStrMapEntries (f : String) :
    List (String × Json) → Except DecErr (List (String × String))
  | [] => .ok []
  | (k, .jstr v) :: rest =>
    match decStrMapEntries f rest with
    | .ok r => .ok ((k, v) :: r)
    | .error e => .error e
  | (_, _) :: _ => .error (.malformed f)

/-- Decode a `map[string]string` field: missing or `null` leaves the zero
value (nil map, here `[]`). -/
def decMapField (f : String) (fields : List (String × Json)) :
    Except DecErr (List (String × String)) :=
  match jlookup fields f with
  | none => .ok []
  | some .null => .ok []
  | some (.jobj entries) => decStrMapEntries f entries
  | some _ => .error (.malformed f)

/-- Sequencing for decoders (explicit bind, kept reducible for proofs). -/
def ebind (x : Except DecErr α) (f : α → Except DecErr β) :
    Except DecErr β :=
  match x with
  | .error e => .error e
  | .ok a => f a

/-! ## JSON codecs for the entities

Field keys and order follow the Go struct declarations and their `json:`
tags; fields without a `json:` tag use the Go field name, per
`encoding/json`. -/

/-- Encode `EndpointConditions`: keys `ready`, `serving`, `terminating`, all
`omitempty` pointers. -/
def EndpointConditions.encJson (c : EndpointConditions) : Json :=
  Json.jobj (encOptBool "ready" c.Ready ++ encOptBool "serving" c.Serving ++
    encOptBool "terminating" c.Terminating)

/-- Decode `EndpointConditions`. -/
def EndpointConditions.decJson (f : String) : Json → Except DecErr EndpointConditions
  | .jobj fields =>
    ebind (decOptBool "ready" fields) fun r =>
    ebind (decOptBool "serving" fields) fun s =>
    ebind (decOptBool "terminating" fields) fun t =>
    .ok ⟨r, s, t⟩
  | _ => .error (.malformed f)

/-- Encode `ForZone`: `Name` has no `json:` tag, so the key is the Go field
name `Name`, always emitted. -/
def ForZone.encJson (z : ForZone) : Json :=
  Json.jobj [("Name", Json.jstr z.Name)]

/-- Decode `ForZone`. -/
def ForZone.decJson (f : String) : Json → Except DecErr ForZone
  | .jobj fields => ebind (decStrField "Name" fields) fun n => .ok ⟨n⟩
  | _ => .error (.malformed f)

/-- Encode `EndpointHints`: `ForZones` has no `json:` tag, so the key is the
Go field name `ForZones`, always emitted. -/
def EndpointHints.encJson (h : EndpointHints) : Json :=
  Json.jobj [("ForZones", Json.jarr (h.ForZones.map ForZone.encJson))]

/-- Decode `EndpointHints`. -/
def EndpointHints.decJson (f : String) : Json → Except DecErr EndpointHints
  | .jobj fields =>
    ebind (decArrField "ForZones" fields) fun elems =>
    ebind (decElems (ForZone.decJson "ForZones") elems) fun zs =>
    .ok ⟨zs⟩
  | _ => .error (.malformed f)

/-- Encode `EndpointPort`: keys `name`, `protocol`, `port`, all `omitempty`
pointers. -/
def EndpointPort.encJson (p : EndpointPort) : Json :=
  Json.jobj (encOptStr "name" p.Name ++ encOptStr "protocol" p.Protocol ++
    encOptInt "port" p.Port)

/-- Decode `EndpointPort`. -/
def EndpointPort.decJson (f : String) : Json → Except DecErr EndpointPort
  | .jobj fields =>
    ebind (decOptStr "name" fields) fun n =>
    ebind (decOptStr "protocol" fields) fun pr =>
    ebind (decOptInt "port" fields) fun po =>
    .ok ⟨n, pr, po⟩
  | _ => .error (.malformed f)

/-- Encode `Endpoint`.  `addresses` and `conditions` are always emitted
(`omitempty` has no effect on the struct-typed `Conditions`);
`deprecatedTopology` and `nodeName` are `omitempty`; `Zone` and `Hints` have
no `json:` tag, hence Go field names and no omission: nil encodes as
`null`. -/
def Endpoint.encJson (e : Endpoint) : Json :=
  Json.jobj (
    [("addresses", Json.jarr (e.Addresses.map Json.jstr))] ++
    [("conditions", e.Conditions.encJson)] ++
    encMapOmitempty "deprecatedTopology" e.DeprecatedTopology ++
    encOptStr "nodeName" e.NodeName ++
    encNullable "Zone" (e.Zone.map Json.jstr) ++
    encNullable "Hints" (e.Hints.map EndpointHints.encJson))

/-- Decode the `conditions` field value: missing or `null` leaves the zero
value of the embedded struct (all three booleans nil). -/
def decCondVal : Option Json → Except DecErr EndpointConditions
  | none => .ok ⟨none, none, none⟩
  | some .null => .ok ⟨none, none, none⟩
  | some j => EndpointConditions.decJson "conditions" j

/-- Decode the `Hints` field value: missing or `null` is a nil pointer. -/
def decHintsVal : Option Json → Except DecErr (Option EndpointHints)
  | none => .ok none
  | some .null => .ok none
  | some j => ebind (EndpointHints.decJson "Hints" j) fun h => .ok (some h)

/-- Decode `Endpoint`. -/
def Endpoint.decJson (f : String) : Json → Except DecErr Endpoint
  | .jobj fields =>
    ebind (decArrField "addresses" fields) fun elems =>
    ebind (decStrElems "addresses" elems) fun addrs =>
    ebind (decCondVal (jlookup fields "conditions")) fun conds =>
    ebind (decMapField "deprecatedTopology" fields) fun topo =>
    ebind (decOptStr "nodeName" fields) fun nn =>
    ebind (decOptStr "Zone" fields) fun z =>
    ebind (decHintsVal (jlookup fields "Hints")) fun hs =>
    .ok ⟨addrs, conds, topo, nn, z, hs⟩
  | _ => .error (.malformed f)

/-- Encode `ObjectMeta` (modelled from the spec): lowercase keys, strings and
labels map all `omitempty`. -/
def ObjectMeta.encJson (m : ObjectMeta) : Json :=
  Json.jobj (encStrOmitempty "name" m.Name ++
    encStrOmitempty "namespace" m.Namespace ++
    encStrOmitempty "resourceVersion" m.ResourceVersion ++
    encMapOmitempty "labels" m.Labels)

/-- Decode `ObjectMeta` (modelled from the spec). -/
def ObjectMeta.decJson (f : String) : Json → Except DecErr ObjectMeta
  | .jobj fields =>
    ebind (decStrField "name" fields) fun n =>
    ebind (decStrField "namespace" fields) fun ns =>
    ebind (decStrField "resourceVersion" fields) fun rv =>
    ebind (decMapField "labels" fields) fun ls =>
    .ok ⟨n, ns, rv, ls⟩
  | _ => .error (.malformed f)

/-- Encode `EndpointSlice`: inline `TypeMeta` (`kind`, `apiVersion`, both
omit-when-empty), then `metadata` (struct: `omitempty` has no effect),
`addressType`, `endpoints`, `ports` (all always emitted). -/
def EndpointSlice.encJson (s : EndpointSlice) : Json :=
  Json.jobj (encStrOmitempty "kind" s.Kind ++
    encStrOmitempty "apiVersion" s.APIVersion ++
    [("metadata", s.metadata.encJson)] ++
    [("addressType", Json.jstr s.AddressType)] ++
    [("endpoints", Json.jarr (s.Endpoints.map Endpoint.encJson))] ++
    [("ports", Json.jarr (s.Ports.map EndpointPort.encJson))])

/-- Decode the `metadata` field value of a slice: missing or `null` leaves
the zero value of the embedded struct. -/
def decMetaVal : Option Json → Except DecErr ObjectMeta
  | none => .ok ⟨"", "", "", []⟩
  | some .null => .ok ⟨"", "", "", []⟩
  | some j => ObjectMeta.decJson "metadata" j

/-- Decode `EndpointSlice`. -/
def EndpointSlice.decJson (f : String) : Json → Except DecErr EndpointSlice
  | .jobj fields =>
    ebind (decStrField "kind" fields) fun k =>
    ebind (decStrField "apiVersion" fields) fun av =>
    ebind (decMetaVal (jlookup fields "metadata")) fun m =>
    ebind (decStrField "addressType" fields) fun at_ =>
    ebind (decArrField "endpoints" fields) fun eps =>
    ebind (decElems (Endpoint.decJson "endpoints") eps) fun es =>
    ebind (decArrField "ports" fields) fun pts =>
    ebind (decElems (EndpointPort.decJson "ports") pts) fun ps =>
    .ok ⟨k, av, m, at_, es, ps⟩
  | _ => .error (.malformed f)

/-- Encode `ListMeta` (modelled from the spec). -/
def ListMeta.encJson (m : ListMeta) : Json :=
  Json.jobj (encStrOmitempty "resourceVersion" m.ResourceVersion)

/-- Decode `ListMeta` (modelled from the spec). -/
def ListMeta.decJson (f : String) : Json → Except DecErr ListMeta
  | .jobj fields =>
    ebind (decStrField "resourceVersion" fields) fun rv => .ok ⟨rv⟩
  | _ => .error (.malformed f)

/-- Encode `EndpointSliceList`: inline `TypeMeta`, then `metadata` and
`items`. -/
def EndpointSliceList.encJson (l : EndpointSliceList) : Json :=
  Json.jobj (encStrOmitempty "kind" l.Kind ++
    encStrOmitempty "apiVersion" l.APIVersion ++
    [("metadata", l.metadata.encJson)] ++
    [("items", Json.jarr (l.Items.map EndpointSlice.encJson))])

/-- Decode the `metadata` field value of a list: missing or `null` leaves
the zero value. -/
def decListMetaVal : Option Json → Except DecErr ListMeta
  | none => .ok ⟨""⟩
  | some .null => .ok ⟨""⟩
  | some j => ListMeta.decJson "metadata" j

/-- Decode `EndpointSliceList`. -/
def EndpointSliceList.decJson (f : String) : Json → Except DecErr EndpointSliceList
  | .jobj fields =>
    ebind (decStrField "kind" fields) fun k =>
    ebind (decStrField "apiVersion" fields) fun av =>
    ebind (decListMetaVal (jlookup fields "metadata")) fun m =>
    ebind (decArrField "items" fields) fun its =>
    ebind (decElems (EndpointSlice.decJson "items") its) fun ss =>
    .ok ⟨k, av, m, ss⟩
  | _ => .error (.malformed f)

/-! ## Binary tagged-field (protobuf) codec helpers -/

/-- Encode an optional pointer field: one tagged entry when present. -/
def pbOpt (n : Nat) (o : Option PbVal) : PbMsg :=
  match o with
  | none => []
  | some v => [(n, v)]

/-- Encode a repeated field: one tagged entry per element, in order. -/
def pbRep (n : Nat) (vs : List PbVal) : PbMsg :=
  vs.map fun v => (n, v)

/-- First payload carried under field number `n` (absent fields yield
`none`; unknown field numbers are skipped, giving forward compatibility). -/
def getOpt (n : Nat) : PbMsg → Option PbVal
  | [] => none
  | (m, v) :: rest => if m = n then some v else getOpt n rest

/-- All payloads carried under field number `n`, in wire order. -/
def getRep (n : Nat) : PbMsg → List PbVal
  | [] => []
  | (m, v) :: rest => if m = n then v :: getRep n rest else getRep n rest

/-- Decode an optional `*bool` field from its tagged payload. -/
def pbOptBool (n : Nat) (f : String) (msg : PbMsg) :
    Except DecErr (Option Bool) :=
  match getOpt n msg with
  | none => .ok none
  | some (.vbool b) => .ok (some b)
  | some _ => .error (.malformed f)

/-- Decode an optional `*string` field from its tagged payload. -/
def pbOptStr (n : Nat) (f : String) (msg : PbMsg) :
    Except DecErr (Option String) :=
  match getOpt n msg with
  | none => .ok none
  | some (.vstr s) => .ok (some s)
  | some _ => .error (.malformed f)

/-- Decode an optional `*int32` field from its tagged payload. -/
def pbOptInt (n : Nat) (f : String) (msg : PbMsg) :
    Except DecErr (Option Int) :=
  match getOpt n msg with
  | none => .ok none
  | some (.vint v) => .ok (some v)
  | some _ => .error (.malformed f)

/-- Decode a non-pointer `string` field: missing leaves the zero value. -/
def pbStr (n : Nat) (f : String) (msg : PbMsg) : Except DecErr String :=
  match getOpt n msg with
  | none => .ok ""
  | some (.vstr s) => .ok s
  | some _ => .error (.malformed f)

/-- Decode a repeated `string` field's payload list. -/
def pbStrElems (f : String) : List PbVal → Except DecErr (List String)
  | [] => .ok []
  | .vstr s :: rest =>
    match pbStrElems f rest with
    | .ok r => .ok (s :: r)
    | .error e => .error e
  | _ :: _ => .error (.malformed f)

/-- Decode a repeated message field's payload list with `dec`. -/
def pbMsgElems (f : String) (dec : PbMsg → Except DecErr β) :
    List PbVal → Except DecErr (List β)
  | [] => .ok []
  | .vmsg m :: rest =>
    match dec m with
    | .error e => .error e
    | .ok y =>
      match pbMsgElems f dec rest with
      | .error e => .error e
      | .ok ys => .ok (y :: ys)
  | _ :: _ => .error (.malformed f)

/-- Encode one `map[string]string` entry as a protobuf map entry message
(key = 1, value = 2). -/
def pbMapEntry (kv : String × String) : PbVal :=
  PbVal.vmsg [(1, PbVal.vstr kv.1), (2, PbVal.vstr kv.2)]

/-- Decode a repeated map-entry field's payload list. -/
def pbMapElems (f : String) : List PbVal → Except DecErr (List (String × String))
  | [] => .ok []
  | .vmsg m :: rest =>
    ebind (pbStr 1 f m) fun k =>
    ebind (pbStr 2 f m) fun v =>
    (match pbMapElems f rest with
     | .ok r => .ok ((k, v) :: r)
     | .error e => .error e)
  | _ :: _ => .error (.malformed f)

/-! ## Binary tagged-field codecs for the entities

Field numbers follow the `protobuf:` tags in the Go source. -/

/-- Encode `EndpointConditions`: ready = 1, serving = 2, terminating = 3. -/
def EndpointConditions.encPb (c : EndpointConditions) : PbMsg :=
  pbOpt 1 (c.Ready.map PbVal.vbool) ++ pbOpt 2 (c.Serving.map PbVal.vbool) ++
    pbOpt 3 (c.Terminating.map PbVal.vbool)

/-- Decode `EndpointConditions` from a message body. -/
def EndpointConditions.decPb (msg : PbMsg) : Except DecErr EndpointConditions :=
  ebind (pbOptBool 1 "ready" msg) fun r =>
  ebind (pbOptBool 2 "serving" msg) fun s =>
  ebind (pbOptBool 3 "terminating" msg) fun t =>
  .ok ⟨r, s, t⟩

/-- Encode `ForZone`: name = 1 (non-pointer string, always emitted). -/
def ForZone.encPb (z : ForZone) : PbMsg :=
  [(1, PbVal.vstr z.Name)]

/-- Decode `ForZone`. -/
def ForZone.decPb (msg : PbMsg) : Except DecErr ForZone :=
  ebind (pbStr 1 "name" msg) fun n => .ok ⟨n⟩

/-- Encode `EndpointHints`: forZones = 1 (repeated message). -/
def EndpointHints.encPb (h : EndpointHints) : PbMsg :=
  pbRep 1 (h.ForZones.map fun z => PbVal.vmsg z.encPb)

/-- Decode `EndpointHints`. -/
def EndpointHints.decPb (msg : PbMsg) : Except DecErr EndpointHints :=
  ebind (pbMsgElems "forZones" ForZone.decPb (getRep 1 msg)) fun zs =>
  .ok ⟨zs⟩

/-- Encode `EndpointPort`: name = 1, protocol = 2, port = 3. -/
def EndpointPort.encPb (p : EndpointPort) : PbMsg :=
  pbOpt 1 (p.Name.map PbVal.vstr) ++ pbOpt 2 (p.Protocol.map PbVal.vstr) ++
    pbOpt 3 (p.Port.map PbVal.vint)

/-- Decode `EndpointPort`. -/
def EndpointPort.decPb (msg : PbMsg) : Except DecErr EndpointPort :=
  ebind (pbOptStr 1 "name" msg) fun n =>
  ebind (pbOptStr 2 "protocol" msg) fun pr =>
  ebind (pbOptInt 3 "port" msg) fun po =>
  .ok ⟨n, pr, po⟩

/-- Encode `Endpoint`: addresses = 1 (repeated), conditions = 2 (non-pointer
message, always emitted), deprecatedTopology = 5 (map entries), nodeName = 6,
zone = 7, hints = 8. -/
def Endpoint.encPb (e : Endpoint) : PbMsg :=
  pbRep 1 (e.Addresses.map PbVal.vstr) ++
    [(2, PbVal.vmsg e.Conditions.encPb)] ++
    pbRep 5 (e.DeprecatedTopology.map pbMapEntry) ++
    pbOpt 6 (e.NodeName.map PbVal.vstr) ++
    pbOpt 7 (e.Zone.map PbVal.vstr) ++
    pbOpt 8 (e.Hints.map fun h => PbVal.vmsg h.encPb)

/-- Decode `Endpoint`. -/
def Endpoint.decPb (msg : PbMsg) : Except DecErr Endpoint :=
  ebind (pbStrElems "addresses" (getRep 1 msg)) fun addrs =>
  ebind (match getOpt 2 msg with
         | none => .ok ⟨none, none, none⟩
         | some (.vmsg m) => EndpointConditions.decPb m
         | some _ => .error (.malformed "conditions")) fun conds =>
  ebind (pbMapElems "deprecatedTopology" (getRep 5 msg)) fun topo =>
  ebind (pbOptStr 6 "nodeName" msg) fun nn =>
  ebind (pbOptStr 7 "zone" msg) fun z =>
  ebind (match getOpt 8 msg with
         | none => .ok none
         | some (.vmsg m) => ebind (EndpointHints.decPb m) fun h => .ok (some h)
         | some _ => .error (.malformed "hints")) fun hs =>
  .ok ⟨addrs, conds, topo, nn, z, hs⟩

/-- Encode `ObjectMeta` (modelled from the spec): name = 1, namespace = 2,
resourceVersion = 3, labels = 4. -/
def ObjectMeta.encPb (m : ObjectMeta) : PbMsg :=
  [(1, PbVal.vstr m.Name), (2, PbVal.vstr m.Namespace),
    (3, PbVal.vstr m.ResourceVersion)] ++
    pbRep 4 (m.Labels.map pbMapEntry)

/-- Decode `ObjectMeta` (modelled from the spec). -/
def ObjectMeta.decPb (msg : PbMsg) : Except DecErr ObjectMeta :=
  ebind (pbStr 1 "name" msg) fun n =>
  ebind (pbStr 2 "namespace" msg) fun ns =>
  ebind (pbStr 3 "resourceVersion" msg) fun rv =>
  ebind (pbMapElems "labels" (getRep 4 msg)) fun ls =>
  .ok ⟨n, ns, rv, ls⟩

/-- Encode `EndpointSlice`: metadata = 1, endpoints = 2 (repeated),
ports = 3 (repeated), addressType = 4.  The embedded `TypeMeta` carries no
`protobuf:` tag, so `Kind` and `APIVersion` are not part of the binary
message. -/
def EndpointSlice.encPb (s : EndpointSlice) : PbMsg :=
  [(1, PbVal.vmsg s.metadata.encPb)] ++
    pbRep 2 (s.Endpoints.map fun e => PbVal.vmsg e.encPb) ++
    pbRep 3 (s.Ports.map fun p => PbVal.vmsg p.encPb) ++
    [(4, PbVal.vstr s.AddressType)]

/-- Decode `EndpointSlice`: `Kind` and `APIVersion` take their zero values,
as the binary message does not carry `TypeMeta`. -/
def EndpointSlice.decPb (msg : PbMsg) : Except DecErr EndpointSlice :=
  ebind (match getOpt 1 msg with
         | none => .ok ⟨"", "", "", []⟩
         | some (.vmsg m) => ObjectMeta.decPb m
         | some _ => .error (.malformed "metadata")) fun meta =>
  ebind (pbMsgElems "endpoints" Endpoint.decPb (getRep 2 msg)) fun es =>
  ebind (pbMsgElems "ports" EndpointPort.decPb (getRep 3 msg)) fun ps =>
  ebind (pbStr 4 "addressType" msg) fun at_ =>
  .ok ⟨"", "", meta, at_, es, ps⟩

/-- Encode `ListMeta` (modelled from the spec): resourceVersion = 1. -/
def ListMeta.encPb (m : ListMeta) : PbMsg :=
  [(1, PbVal.vstr m.ResourceVersion)]

/-- Decode `ListMeta` (modelled from the spec). -/
def ListMeta.decPb (msg : PbMsg) : Except DecErr ListMeta :=
  ebind (pbStr 1 "resourceVersion" msg) fun rv => .ok ⟨rv⟩

/-- Encode `EndpointSliceList`: metadata = 1, items = 2 (repeated).  As for
`EndpointSlice`, `TypeMeta` is absent from the binary message. -/
def EndpointSliceList.encPb (l : EndpointSliceList) : PbMsg :=
  [(1, PbVal.vmsg l.metadata.encPb)] ++
    pbRep 2 (l.Items.map fun s => PbVal.vmsg s.encPb)

/-- Decode `EndpointSliceList`. -/
def EndpointSliceList.decPb (msg : PbMsg) : Except DecErr EndpointSliceList :=
  ebind (match getOpt 1 msg with
         | none => .ok ⟨""⟩
         | some (.vmsg m) => ListMeta.decPb m
         | some _ => .error (.malformed "metadata")) fun meta =>
  ebind (pbMsgElems "items" EndpointSlice.decPb (getRep 2 msg)) fun ss =>
  .ok ⟨"", "", meta, ss⟩

/-! ## Concrete instances used as test inputs -/

/-- Keys contributed by an optional field (present iff the field is). -/
def optKey (k : String) (o : Option α) : List String :=
  match o with
  | none => []
  | some _ => [k]

/-- A populated `EndpointSlice` with non-empty `TypeMeta`. -/
def exSlice : EndpointSlice :=
  ⟨"EndpointSlice", "discovery.k8s.io/v1", ⟨"svc-abc", "default", "7", []⟩,
    "IPv4", [⟨["10.0.0.5"], ⟨some true, none, none⟩, [], none, none, none⟩],
    [⟨some "http", some "TCP", some 80⟩]⟩

/-- An `Endpoint` with every optional field absent. -/
def exNoZone : Endpoint :=
  ⟨["10.0.0.5"], ⟨none, none, none⟩, [], none, none, none⟩

/-- An `EndpointSlice` with 101 ports (over the documented limit of 100). -/
def exPorts101 : EndpointSlice :=
  ⟨"", "", ⟨"", "", "", []⟩, "IPv4", [],
    List.replicate 101 ⟨none, none, none⟩⟩

/-- An `Endpoint` with zero addresses (under the documented minimum of 1). -/
def exNoAddr : Endpoint :=
  ⟨[], ⟨none, none, none⟩, [], none, none, none⟩

/-- An `EndpointHints` with 9 zone entries (over the documented limit of 8). -/
def exNineZones : EndpointHints :=
  ⟨List.replicate 9 ⟨"zone-a"⟩⟩

/-- An `EndpointPort` whose name is 64 characters long (over the documented
DNS-label limit of 63): semantically invalid but well-formed. -/
def exLongName : EndpointPort :=
  ⟨some (String.mk (List.replicate 64 'a')), none, none⟩

/-! ## Helper lemmas -/

theorem ebind_ok (a : α) (f : α → Except DecErr β) : ebind (.ok a) f = f a := rfl

theorem ebind_err (e : DecErr) (f : α → Except DecErr β) :
    ebind (.error e) f = .error e := rfl

theorem decStrElems_map (f : String) (xs : List String) :
    decStrElems f (xs.map Json.jstr) = .ok xs := by
  induction xs with
  | nil => rfl
  | cons x xs ih => simp [decStrElems, ih]

theorem decElems_map (dec : α → Except DecErr β) (enc : β → α)
    (h : ∀ a, dec (enc a) = .ok a) (xs : List β) :
    decElems dec (xs.map enc) = .ok xs := by
  induction xs with
  | nil => rfl
  | cons x xs ih => simp [decElems, h, ih]

theorem decStrMapEntries_enc (f : String) (m : List (String × String)) :
    decStrMapEntries f (m.map fun kv => (kv.1, Json.jstr kv.2)) = .ok m := by
  induction m with
  | nil => rfl
  | cons kv m ih => simp [decStrMapEntries, ih]

theorem pbStrElems_map (f : String) (xs : List String) :
    pbStrElems f (xs.map PbVal.vstr) = .ok xs := by
  induction xs with
  | nil => rfl
  | cons x xs ih => simp [pbStrElems, ih]

theorem pbMsgElems_map (f : String) (dec : PbMsg → Except DecErr β)
    (enc : β → PbMsg) (h : ∀ a, dec (enc a) = .ok a) (xs : List β) :
    pbMsgElems f dec (xs.map fun x => PbVal.vmsg (enc x)) = .ok xs := by
  induction xs with
  | nil => rfl
  | cons x xs ih => simp [pbMsgElems, h, ih]

theorem pbMsgElems_map_via (f : String) (dec : PbMsg → Except DecErr β)
    (enc : β → PbMsg) (g : β → β) (h : ∀ a, dec (enc a) = .ok (g a))
    (xs : List β) :
    pbMsgElems f dec (xs.map fun x => PbVal.vmsg (enc x)) = .ok (xs.map g) := by
  induction xs with
  | nil => rfl
  | cons x xs ih => simp [pbMsgElems, h, ih]

theorem pbMapElems_enc (f : String) (m : List (String × String)) :
    pbMapElems f (m.map pbMapEntry) = .ok m := by
  induction m with
  | nil => rfl
  | cons kv m ih => simp [pbMapElems, pbMapEntry, pbStr, getOpt, ebind_ok, ih]

theorem getOpt_nil (n : Nat) : getOpt n [] = none := rfl

theorem getOpt_cons (n m : Nat) (v : PbVal) (rest : PbMsg) :
    getOpt n ((m, v) :: rest) = if m = n then some v else getOpt n rest := rfl

theorem getRep_nil (n : Nat) : getRep n [] = [] := rfl

theorem getRep_cons (n m : Nat) (v : PbVal) (rest : PbMsg) :
    getRep n ((m, v) :: rest) = if m = n then v :: getRep n rest else getRep n rest := rfl

theorem getOpt_append (n : Nat) (a b : PbMsg) :
    getOpt n (a ++ b) = match getOpt n a with
      | some v => some v
      | none => getOpt n b := by
  induction a with
  | nil => simp [getOpt]
  | cons x rest ih =>
    obtain ⟨m, v⟩ := x
    by_cases h : m = n <;> simp [getOpt, h, ih]

theorem getRep_append (n : Nat) (a b : PbMsg) :
    getRep n (a ++ b) = getRep n a ++ getRep n b := by
  induction a with
  | nil => simp [getRep]
  | cons x rest ih =>
    obtain ⟨m, v⟩ := x
    by_cases h : m = n <;> simp [getRep, h, ih]

theorem getOpt_rep (n m : Nat) (vs : List PbVal) :
    getOpt n (pbRep m vs) = if m = n then vs.head? else none := by
  induction vs with
  | nil => simp [pbRep, getOpt]
  | cons v vs ih => by_cases h : m = n <;> simp_all [pbRep, getOpt, h]

theorem getRep_rep (n m : Nat) (vs : List PbVal) :
    getRep n (pbRep m vs) = if m = n then vs else [] := by
  induction vs with
  | nil => simp [pbRep, getRep]
  | cons v vs ih =>
    by_cases h : m = n <;> simpa [pbRep, getRep, h] using ih

theorem getOpt_opt (n m : Nat) (o : Option PbVal) :
    getOpt n (pbOpt m o) = if m = n then o else none := by
  cases o <;> by_cases h : m = n <;> simp [pbOpt, getOpt, h]

theorem getRep_opt (n m : Nat) (o : Option PbVal) :
    getRep n (pbOpt m o) = if m = n then o.toList else [] := by
  cases o <;> by_cases h : m = n <;> simp [pbOpt, getRep, h]

/-! ## Round-trip lemmas, structured text format -/

theorem forZone_json_rt (f : String) (z : ForZone) :
    ForZone.decJson f z.encJson = .ok z := rfl

theorem decElems_forZone (f : String) (zs : List ForZone) :
    decElems (ForZone.decJson f) (zs.map ForZone.encJson) = .ok zs :=
  decElems_map _ _ (fun z => forZone_json_rt f z) zs

theorem hints_json_rt (f : String) (h : EndpointHints) :
    EndpointHints.decJson f h.encJson = .ok h := by
  obtain ⟨zs⟩ := h
  simp [EndpointHints.decJson, EndpointHints.encJson, decArrField, jlookup,
    ebind_ok, decElems_forZone]

theorem conditions_json_rt (f : String) (c : EndpointConditions) :
    EndpointConditions.decJson f c.encJson = .ok c := by
  obtain ⟨r, s, t⟩ := c
  cases r <;> cases s <;> cases t <;> rfl

theorem port_json_rt (f : String) (p : EndpointPort) :
    EndpointPort.decJson f p.encJson = .ok p := by
  obtain ⟨n, pr, po⟩ := p
  cases n <;> cases pr <;> cases po <;> rfl

theorem decCondVal_enc (c : EndpointConditions) :
    decCondVal (some c.encJson) = .ok c := by
  have h : decCondVal (some c.encJson) =
      EndpointConditions.decJson "conditions" c.encJson := rfl
  rw [h, conditions_json_rt]

theorem decHintsVal_enc (h : EndpointHints) :
    decHintsVal (some h.encJson) = .ok (some h) := by
  have e : decHintsVal (some h.encJson) =
      ebind (EndpointHints.decJson "Hints" h.encJson) (fun x => .ok (some x)) := rfl
  rw [e, hints_json_rt]
  rfl

theorem decHintsVal_null : decHintsVal (some Json.null) = .ok none := rfl

theorem endpoint_json_rt (f : String) (e : Endpoint) :
    Endpoint.decJson f e.encJson = .ok e := by
  obtain ⟨addrs, conds, topo, nn, z, hs⟩ := e
  cases topo <;> cases nn <;> cases z <;> cases hs <;>
    simp [Endpoint.decJson, Endpoint.encJson, encMapOmitempty, encOptStr,
      encNullable, encStrMap, decArrField, decMapField, decOptStr, jlookup,
      ebind_ok, decStrElems_map, decStrMapEntries, decStrMapEntries_enc,
      decCondVal_enc, decHintsVal_null, decHintsVal_enc]

theorem decElems_endpoint (f : String) (es : List Endpoint) :
    decElems (Endpoint.decJson f) (es.map Endpoint.encJson) = .ok es :=
  decElems_map _ _ (fun e => endpoint_json_rt f e) es

theorem decElems_port (f : String) (ps : List EndpointPort) :
    decElems (EndpointPort.decJson f) (ps.map EndpointPort.encJson) = .ok ps :=
  decElems_map _ _ (fun p => port_json_rt f p) ps

theorem objectMeta_json_rt (f : String) (m : ObjectMeta) :
    ObjectMeta.decJson f m.encJson = .ok m := by
  obtain ⟨n, ns, rv, ls⟩ := m
  by_cases hn : n = "" <;> by_cases hns : ns = "" <;> by_cases hrv : rv = "" <;>
    cases ls <;>
    simp [ObjectMeta.decJson, ObjectMeta.encJson, encStrOmitempty,
      encMapOmitempty, encStrMap, decStrField, decMapField, jlookup, ebind_ok,
      decStrMapEntries, decStrMapEntries_enc, hn, hns, hrv]

theorem decMetaVal_enc (m : ObjectMeta) :
    decMetaVal (some m.encJson) = .ok m := by
  have h : decMetaVal (some m.encJson) =
      ObjectMeta.decJson "metadata" m.encJson := rfl
  rw [h, objectMeta_json_rt]

theorem slice_json_rt (f : String) (s : EndpointSlice) :
    EndpointSlice.decJson f s.encJson = .ok s := by
  obtain ⟨k, av, m, at_, es, ps⟩ := s
  by_cases hk : k = "" <;> by_cases hav : av = "" <;>
    simp [EndpointSlice.decJson, EndpointSlice.encJson, encStrOmitempty,
      decStrField, decArrField, jlookup, ebind_ok, decMetaVal_enc,
      decElems_endpoint, decElems_port, hk, hav]

theorem decElems_slice (f : String) (ss : List EndpointSlice) :
    decElems (EndpointSlice.decJson f) (ss.map EndpointSlice.encJson) = .ok ss :=
  decElems_map _ _ (fun s => slice_json_rt f s) ss

theorem listMeta_json_rt (f : String) (m : ListMeta) :
    ListMeta.decJson f m.encJson = .ok m := by
  obtain ⟨rv⟩ := m
  by_cases hrv : rv = "" <;>
    simp [ListMeta.decJson, ListMeta.encJson, encStrOmitempty, decStrField,
      jlookup, ebind_ok, hrv]

theorem decListMetaVal_enc (m : ListMeta) :
    decListMetaVal (some m.encJson) = .ok m := by
  have h : decListMetaVal (some m.encJson) =
      ListMeta.decJson "metadata" m.encJson := rfl
  rw [h, listMeta_json_rt]

theorem sliceList_json_rt (f : String) (l : EndpointSliceList) :
    EndpointSliceList.decJson f l.encJson = .ok l := by
  obtain ⟨k, av, m, its⟩ := l
  by_cases hk : k = "" <;> by_cases hav : av = "" <;>
    simp [EndpointSliceList.decJson, EndpointSliceList.encJson,
      encStrOmitempty, decStrField, decArrField, jlookup, ebind_ok,
      decListMetaVal_enc, decElems_slice, hk, hav]

/-! ## Round-trip lemmas, binary tagged-field format -/

theorem conditions_pb_rt (c : EndpointConditions) :
    EndpointConditions.decPb c.encPb = .ok c := by
  obtain ⟨r, s, t⟩ := c
  cases r <;> cases s <;> cases t <;> rfl

theorem forZone_pb_rt (z : ForZone) : ForZone.decPb z.encPb = .ok z := rfl

theorem hints_pb_rt (h : EndpointHints) :
    EndpointHints.decPb h.encPb = .ok h := by
  obtain ⟨zs⟩ := h
  simp [EndpointHints.decPb, EndpointHints.encPb, getRep_rep, ebind_ok,
    pbMsgElems_map _ _ _ forZone_pb_rt]

theorem port_pb_rt (p : EndpointPort) : EndpointPort.decPb p.encPb = .ok p := by
  obtain ⟨n, pr, po⟩ := p
  cases n <;> cases pr <;> cases po <;> rfl

theorem endpoint_pb_rt (e : Endpoint) : Endpoint.decPb e.encPb = .ok e := by
  obtain ⟨addrs, conds, topo, nn, z, hs⟩ := e
  cases nn <;> cases z <;> cases hs <;>
    simp [Endpoint.decPb, Endpoint.encPb, getOpt_append, getRep_append,
      getOpt_rep, getRep_rep, getOpt_opt, getRep_opt, getOpt_cons,
      getRep_cons, getOpt_nil, getRep_nil, pbStrElems_map, pbMapElems_enc,
      pbOptStr, pbOptBool, pbOptInt, ebind_ok, conditions_pb_rt, hints_pb_rt]

theorem objectMeta_pb_rt (m : ObjectMeta) : ObjectMeta.decPb m.encPb = .ok m := by
  obtain ⟨n, ns, rv, ls⟩ := m
  simp [ObjectMeta.decPb, ObjectMeta.encPb, getOpt_append, getRep_append,
    getOpt_rep, getRep_rep, getOpt_cons, getRep_cons, getOpt_nil, getRep_nil,
    pbStr, pbMapElems_enc, ebind_ok]

theorem slice_pb_rt (s : EndpointSlice) :
    EndpointSlice.decPb s.encPb =
      .ok { s with Kind := "", APIVersion := "" } := by
  obtain ⟨k, av, m, at_, es, ps⟩ := s
  simp [EndpointSlice.decPb, EndpointSlice.encPb, getOpt_append,
    getRep_append, getOpt_rep, getRep_rep, getOpt_cons, getRep_cons,
    getOpt_nil, getRep_nil, pbStr, ebind_ok, objectMeta_pb_rt,
    pbMsgElems_map _ _ _ endpoint_pb_rt, pbMsgElems_map _ _ _ port_pb_rt]

theorem listMeta_pb_rt (m : ListMeta) : ListMeta.decPb m.encPb = .ok m := rfl

theorem sliceList_pb_rt (l : EndpointSliceList) :
    EndpointSliceList.decPb l.encPb =
      .ok ⟨"", "", l.metadata,
        l.Items.map fun s => { s with Kind := "", APIVersion := "" }⟩ := by
  obtain ⟨k, av, m, its⟩ := l
  simp [EndpointSliceList.decPb, EndpointSliceList.encPb, getOpt_append,
    getRep_append, getOpt_rep, getRep_rep, getOpt_cons, getRep_cons,
    getOpt_nil, getRep_nil, ebind_ok, listMeta_pb_rt,
    pbMsgElems_map_via _ _ _ _ slice_pb_rt]

/-! ## Claim theorems -/

/-- C1 counterexample: the claim fails as stated.  The binary tagged-field
format does not carry the embedded `TypeMeta` (`kind`, `apiVersion` have no
`protobuf:` tag), so an `EndpointSlice` with a non-empty `Kind` does not
survive a binary encode-then-decode unchanged. -/
theorem c1_pb_typemeta_lost :
    EndpointSlice.decPb (EndpointSlice.encPb exSlice) =
      Except.ok { exSlice with Kind := "", APIVersion := "" } ∧
    ({ exSlice with Kind := "", APIVersion := "" } : EndpointSlice) ≠ exSlice := by
  refine ⟨slice_pb_rt exSlice, ?_⟩
  decide

/-- C1 (amended): encode-then-decode is the identity in the structured text
format for all six entities; in the binary tagged-field format it is the
identity for `Endpoint`, `EndpointConditions`, `EndpointPort`,
`EndpointHints` and `ForZone`, while for `EndpointSlice` it returns the
original with `Kind` and `APIVersion` cleared (the binary format carries no
`TypeMeta`), hence the identity whenever those are empty. -/
theorem c1_roundtrip :
    (∀ f s, EndpointSlice.decJson f (EndpointSlice.encJson s) = .ok s) ∧
    (∀ f e, Endpoint.decJson f (Endpoint.encJson e) = .ok e) ∧
    (∀ f c, EndpointConditions.decJson f (EndpointConditions.encJson c) = .ok c) ∧
    (∀ f p, EndpointPort.decJson f (EndpointPort.encJson p) = .ok p) ∧
    (∀ f h, EndpointHints.decJson f (EndpointHints.encJson h) = .ok h) ∧
    (∀ f z, ForZone.decJson f (ForZone.encJson z) = .ok z) ∧
    (∀ e, Endpoint.decPb (Endpoint.encPb e) = .ok e) ∧
    (∀ c, EndpointConditions.decPb (EndpointConditions.encPb c) = .ok c) ∧
    (∀ p, EndpointPort.decPb (EndpointPort.encPb p) = .ok p) ∧
    (∀ h, EndpointHints.decPb (EndpointHints.encPb h) = .ok h) ∧
    (∀ z, ForZone.decPb (ForZone.encPb z) = .ok z) ∧
    (∀ s, EndpointSlice.decPb (EndpointSlice.encPb s) =
      .ok { s with Kind := "", APIVersion := "" }) :=
  ⟨slice_json_rt, endpoint_json_rt, conditions_json_rt, port_json_rt,
    hints_json_rt, forZone_json_rt, endpoint_pb_rt, conditions_pb_rt,
    port_pb_rt, hints_pb_rt, forZone_pb_rt, slice_pb_rt⟩

/-- C2 counterexample: the claim fails as stated.  `Endpoint.Zone` has no
`json:` tag, so its key is the Go field name `Zone`, not the documented
lowercase `zone`, and — lacking `omitempty` — it appears as `null` even when
absent. -/
theorem c2_zone_key_mismatch :
    jhasKey (Endpoint.encJson exNoZone) "zone" = false ∧
    jhasKey (Endpoint.encJson exNoZone) "Zone" = true ∧
    jget (Endpoint.encJson exNoZone) "Zone" = some Json.null :=
  ⟨rfl, rfl, rfl⟩

/-- C2 (amended): the structured-text encoding uses the documented lowercase
keys for every field that carries a `json:` tag (`kind`, `apiVersion`,
`metadata`, `addressType`, `endpoints`, `ports`, `addresses`, `conditions`,
`deprecatedTopology`, `nodeName`, `name`, `protocol`, `port`, `ready`,
`serving`, `terminating`), and absent optional fields tagged `omitempty` are
omitted; but `Endpoint.Zone`, `Endpoint.Hints`, `EndpointHints.ForZones` and
`ForZone.Name` carry no `json:` tag, so they are encoded under the Go field
names `Zone`, `Hints`, `ForZones`, `Name`, and `Zone`/`Hints` are always
emitted (as `null` when absent). -/
theorem c2_json_keys :
    (∀ p : EndpointPort, jkeys p.encJson =
      optKey "name" p.Name ++ optKey "protocol" p.Protocol ++
        optKey "port" p.Port) ∧
    (∀ c : EndpointConditions, jkeys c.encJson =
      optKey "ready" c.Ready ++ optKey "serving" c.Serving ++
        optKey "terminating" c.Terminating) ∧
    (∀ e : Endpoint, jkeys e.encJson =
      ["addresses", "conditions"] ++
      (if e.DeprecatedTopology = [] then [] else ["deprecatedTopology"]) ++
      optKey "nodeName" e.NodeName ++ ["Zone", "Hints"]) ∧
    (∀ s : EndpointSlice, jkeys s.encJson =
      (if s.Kind = "" then [] else ["kind"]) ++
      (if s.APIVersion = "" then [] else ["apiVersion"]) ++
      ["metadata", "addressType", "endpoints", "ports"]) ∧
    (∀ h : EndpointHints, jkeys h.encJson = ["ForZones"]) ∧
    (∀ z : ForZone, jkeys z.encJson = ["Name"]) := by
  refine ⟨?_, ?_, ?_, ?_, fun h => rfl, fun z => rfl⟩
  · intro p
    obtain ⟨n, pr, po⟩ := p
    cases n <;> cases pr <;> cases po <;> rfl
  · intro c
    obtain ⟨r, s, t⟩ := c
    cases r <;> cases s <;> cases t <;> rfl
  · intro e
    obtain ⟨addrs, conds, topo, nn, z, hs⟩ := e
    cases topo <;> cases nn <;>
      simp [Endpoint.encJson, jkeys, encMapOmitempty, encOptStr, encNullable,
        optKey]
  · intro s
    obtain ⟨k, av, m, at_, es, ps⟩ := s
    by_cases hk : k = "" <;> by_cases hav : av = "" <;>
      simp [EndpointSlice.encJson, jkeys, encStrOmitempty, hk, hav]

/-- C3: the binary tagged-field encodings assign exactly the documented
upstream Kubernetes field numbers: observing each encoded message at the
documented number recovers exactly the corresponding field's payload. -/
theorem c3_field_numbers :
    (∀ s : EndpointSlice,
      getOpt 1 s.encPb = some (PbVal.vmsg s.metadata.encPb) ∧
      getRep 2 s.encPb = s.Endpoints.map (fun e => PbVal.vmsg e.encPb) ∧
      getRep 3 s.encPb = s.Ports.map (fun p => PbVal.vmsg p.encPb) ∧
      getOpt 4 s.encPb = some (PbVal.vstr s.AddressType)) ∧
    (∀ e : Endpoint,
      getRep 1 e.encPb = e.Addresses.map PbVal.vstr ∧
      getOpt 2 e.encPb = some (PbVal.vmsg e.Conditions.encPb) ∧
      getRep 5 e.encPb = e.DeprecatedTopology.map pbMapEntry ∧
      getOpt 6 e.encPb = e.NodeName.map PbVal.vstr ∧
      getOpt 7 e.encPb = e.Zone.map PbVal.vstr ∧
      getOpt 8 e.encPb = e.Hints.map (fun h => PbVal.vmsg h.encPb)) ∧
    (∀ c : EndpointConditions,
      getOpt 1 c.encPb = c.Ready.map PbVal.vbool ∧
      getOpt 2 c.encPb = c.Serving.map PbVal.vbool ∧
      getOpt 3 c.encPb = c.Terminating.map PbVal.vbool) ∧
    (∀ p : EndpointPort,
      getOpt 1 p.encPb = p.Name.map PbVal.vstr ∧
      getOpt 2 p.encPb = p.Protocol.map PbVal.vstr ∧
      getOpt 3 p.encPb = p.Port.map PbVal.vint) ∧
    (∀ h : EndpointHints,
      getRep 1 h.encPb = h.ForZones.map (fun z => PbVal.vmsg z.encPb)) ∧
    (∀ z : ForZone, getOpt 1 z.encPb = some (PbVal.vstr z.Name)) ∧
    (∀ l : EndpointSliceList,
      getOpt 1 l.encPb = some (PbVal.vmsg l.metadata.encPb) ∧
      getRep 2 l.encPb = l.Items.map fun s => PbVal.vmsg s.encPb) := by
  refine ⟨?_, ?_, ?_, ?_, ?_, fun z => rfl, ?_⟩
  · intro s
    refine ⟨?_, ?_, ?_, ?_⟩ <;>
      simp [EndpointSlice.encPb, getOpt_append, getRep_append, getOpt_rep,
        getRep_rep, getOpt_cons, getRep_cons, getOpt_nil, getRep_nil]
  · intro e
    obtain ⟨addrs, conds, topo, nn, z, hs⟩ := e
    refine ⟨?_, ?_, ?_, ?_, ?_, ?_⟩ <;>
      cases nn <;> cases z <;> cases hs <;>
      simp [Endpoint.encPb, getOpt_append, getRep_append, getOpt_rep,
        getRep_rep, getOpt_opt, getRep_opt, getOpt_cons, getRep_cons,
        getOpt_nil, getRep_nil]
  · intro c
    obtain ⟨r, s, t⟩ := c
    refine ⟨?_, ?_, ?_⟩ <;> cases r <;> cases s <;> cases t <;> rfl
  · intro p
    obtain ⟨n, pr, po⟩ := p
    refine ⟨?_, ?_, ?_⟩ <;> cases n <;> cases pr <;> cases po <;> rfl
  · intro h
    simp [EndpointHints.encPb, getRep_rep]
  · intro l
    refine ⟨rfl, ?_⟩
    simp [EndpointSliceList.encPb, getRep_append, getRep_rep, getRep_cons,
      getRep_nil]

/-- C4: `AddressType` and `Protocol` are open string enumerations: decoding
any string `s` — in the known set or not — succeeds in both wire formats,
and the literal string survives a subsequent re-encode. -/
theorem c4_open_enums (s : String) :
    (EndpointSlice.decJson "s" (Json.jobj [("addressType", Json.jstr s)]) =
      .ok ⟨"", "", ⟨"", "", "", []⟩, s, [], []⟩) ∧
    (jget (EndpointSlice.encJson ⟨"", "", ⟨"", "", "", []⟩, s, [], []⟩)
      "addressType" = some (Json.jstr s)) ∧
    (EndpointPort.decJson "p" (Json.jobj [("protocol", Json.jstr s)]) =
      .ok ⟨none, some s, none⟩) ∧
    (jget (EndpointPort.encJson ⟨none, some s, none⟩) "protocol" =
      some (Json.jstr s)) ∧
    (EndpointSlice.decPb [(4, PbVal.vstr s)] =
      .ok ⟨"", "", ⟨"", "", "", []⟩, s, [], []⟩) ∧
    (getOpt 4 (EndpointSlice.encPb ⟨"", "", ⟨"", "", "", []⟩, s, [], []⟩) =
      some (PbVal.vstr s)) ∧
    (EndpointPort.decPb [(2, PbVal.vstr s)] = .ok ⟨none, some s, none⟩) ∧
    (getOpt 2 (EndpointPort.encPb ⟨none, some s, none⟩) =
      some (PbVal.vstr s)) :=
  ⟨rfl, rfl, rfl, rfl, rfl, rfl, rfl, rfl⟩

/-- C5: the documented cardinality limits are not enforced: a slice with more
than 1000 endpoints or more than 100 ports, an endpoint with more than 100
(or zero) addresses, and hints with more than 8 zone entries all encode and
then decode without error in both wire formats. -/
theorem c5_no_cardinality_checks (s : EndpointSlice) (e : Endpoint)
    (h : EndpointHints) :
    (1000 < s.Endpoints.length ∨ 100 < s.Ports.length →
      isOk (EndpointSlice.decJson "s" s.encJson) = true ∧
      isOk (EndpointSlice.decPb s.encPb) = true) ∧
    (100 < e.Addresses.length ∨ e.Addresses = [] →
      isOk (Endpoint.decJson "e" e.encJson) = true ∧
      isOk (Endpoint.decPb e.encPb) = true) ∧
    (8 < h.ForZones.length →
      isOk (EndpointHints.decJson "h" h.encJson) = true ∧
      isOk (EndpointHints.decPb h.encPb) = true) := by
  refine ⟨fun _ => ⟨?_, ?_⟩, fun _ => ⟨?_, ?_⟩, fun _ => ⟨?_, ?_⟩⟩ <;>
    simp [slice_json_rt, slice_pb_rt, endpoint_json_rt, endpoint_pb_rt,
      hints_json_rt, hints_pb_rt, isOk]

/-- C5 witness: concrete limit-violating instances — 101 ports, zero
addresses, nine zone hints — all encode and decode without error. -/
theorem c5_witness :
    (isOk (EndpointSlice.decJson "s" exPorts101.encJson) = true ∧
     isOk (EndpointSlice.decPb exPorts101.encPb) = true) ∧
    (isOk (Endpoint.decJson "e" exNoAddr.encJson) = true ∧
     isOk (Endpoint.decPb exNoAddr.encPb) = true) ∧
    (isOk (EndpointHints.decJson "h" exNineZones.encJson) = true ∧
     isOk (EndpointHints.decPb exNineZones.encPb) = true) :=
  ⟨(c5_no_cardinality_checks exPorts101 exNoAddr exNineZones).1
      (Or.inr (by decide)),
   (c5_no_cardinality_checks exPorts101 exNoAddr exNineZones).2.1
      (Or.inr rfl),
   (c5_no_cardinality_checks exPorts101 exNoAddr exNineZones).2.2
      (by decide)⟩

/-- C6: the three condition booleans are independent tri-states, preserved
verbatim by encode-then-decode in both wire formats; in particular
`{Ready: null, Terminating: true}` round-trips with `Ready` still absent and
`Terminating` still present-true. -/
theorem c6_tristate_conditions :
    (∀ c : EndpointConditions,
      EndpointConditions.decJson "c" c.encJson = .ok c ∧
      EndpointConditions.decPb c.encPb = .ok c) ∧
    (EndpointConditions.decJson "c"
      (EndpointConditions.encJson ⟨none, none, some true⟩) =
        .ok ⟨none, none, some true⟩) ∧
    (EndpointConditions.decPb (EndpointConditions.encPb ⟨none, none, some true⟩) =
        .ok ⟨none, none, some true⟩) ∧
    (jhasKey (EndpointConditions.encJson ⟨none, none, some true⟩) "ready" =
      false) ∧
    (jget (EndpointConditions.encJson ⟨none, none, some true⟩) "terminating" =
      some (Json.jbool true)) :=
  ⟨fun c => ⟨conditions_json_rt "c" c, conditions_pb_rt c⟩, rfl, rfl, rfl, rfl⟩

/-- C7: an `EndpointPort` with `Name` equal to the empty string and
`Protocol`, `Port` absent round-trips in both formats with `Name` still the
present empty string (distinct from absent), `Protocol` still absent (no
default `TCP` materialized), and `Port` still absent. -/
theorem c7_empty_name_port :
    (EndpointPort.decJson "p" (EndpointPort.encJson ⟨some "", none, none⟩) =
      .ok ⟨some "", none, none⟩) ∧
    (EndpointPort.decPb (EndpointPort.encPb ⟨some "", none, none⟩) =
      .ok ⟨some "", none, none⟩) ∧
    ((⟨some "", none, none⟩ : EndpointPort) ≠ ⟨none, none, none⟩) ∧
    (jget (EndpointPort.encJson ⟨some "", none, none⟩) "name" =
      some (Json.jstr "")) ∧
    (jhasKey (EndpointPort.encJson ⟨some "", none, none⟩) "protocol" = false) ∧
    (getOpt 2 (EndpointPort.encPb ⟨some "", none, none⟩) = none) :=
  ⟨rfl, rfl, by decide, rfl, rfl, rfl⟩

/-- C8 counterexample: the claim fails as stated.  Decoding a wire object
with `ready: true` and `terminating: true` succeeds and produces exactly
that combination — the schema never rejects it. -/
theorem c8_ready_while_terminating :
    EndpointConditions.decJson "c"
      (Json.jobj [("ready", Json.jbool true), ("terminating", Json.jbool true)]) =
      .ok ⟨some true, none, some true⟩ ∧
    EndpointConditions.decPb [(1, PbVal.vbool true), (3, PbVal.vbool true)] =
      .ok ⟨some true, none, some true⟩ :=
  ⟨rfl, rfl⟩

/-- C8 (amended): the documented rule that `Ready` is never true for a
terminating endpoint is an obligation on producers, not enforced by this
schema: decode carries every condition combination verbatim, including
`Ready = true` together with `Terminating = true`. -/
theorem c8_invariant_not_enforced :
    (∀ c : EndpointConditions,
      EndpointConditions.decJson "c" c.encJson = .ok c ∧
      EndpointConditions.decPb c.encPb = .ok c) ∧
    (EndpointConditions.decJson "c"
      (EndpointConditions.encJson ⟨some true, some true, some true⟩) =
        .ok ⟨some true, some true, some true⟩) :=
  ⟨fun c => ⟨conditions_json_rt "c" c, conditions_pb_rt c⟩, rfl⟩

/-- C9: decode failures are the single "malformed input" error kind, naming
the offending field; decode never errors on well-formed but semantically
invalid values (e.g. an over-length port name). -/
theorem c9_error_taxonomy :
    (∀ j e, Endpoint.decJson "Endpoint" j = .error e →
      ∃ fld, e = DecErr.malformed fld) ∧
    (∀ m e, Endpoint.decPb m = .error e → ∃ fld, e = DecErr.malformed fld) ∧
    (Endpoint.decJson "Endpoint" (Json.jstr "x") =
      .error (DecErr.malformed "Endpoint")) ∧
    (∀ p : EndpointPort, EndpointPort.decJson "p" p.encJson = .ok p) ∧
    (EndpointPort.decJson "p" exLongName.encJson = .ok exLongName) := by
  refine ⟨?_, ?_, rfl, port_json_rt "p", port_json_rt "p" exLongName⟩
  · intro j e _
    obtain ⟨fld⟩ := e
    exact ⟨fld, rfl⟩
  · intro m e _
    obtain ⟨fld⟩ := e
    exact ⟨fld, rfl⟩

/-- C9 witness: concrete malformed inputs — a JSON string where an object is
required, and a boolean payload in the repeated string field 1 — fail with
the malformed-input kind. -/
theorem c9_witness :
    (∃ fld, DecErr.malformed "Endpoint" = DecErr.malformed fld) ∧
    (∃ fld, DecErr.malformed "addresses" = DecErr.malformed fld) :=
  ⟨c9_error_taxonomy.1 (Json.jstr "x") (DecErr.malformed "Endpoint") rfl,
   c9_error_taxonomy.2.1 [(1, PbVal.vbool true)] (DecErr.malformed "addresses")
     rfl⟩

/-- C10: `Endpoint.Conditions` is a plain embedded struct with no absent
state: the structured-text encoding always emits the `conditions` key —
`omitempty` has no effect on struct-typed fields — and an all-absent
conditions value encodes as the empty object. -/
theorem c10_conditions_always_emitted :
    (∀ e : Endpoint, jhasKey e.encJson "conditions" = true) ∧
    (∀ e : Endpoint, jget e.encJson "conditions" = some e.Conditions.encJson) ∧
    EndpointConditions.encJson ⟨none, none, none⟩ = Json.jobj [] :=
  ⟨fun _ => rfl, fun _ => rfl, rfl⟩
